import Mathlib

/-!
Verification development for the Smart-pay repository.

The repository consists of two scripts:
* `Stock-crypto-portfolio-optimizer/.py` — credential/client bootstrap:
  reads `OPENAI_API_KEY`, exits with status 1 on a missing/placeholder key,
  otherwise constructs one `OpenAIChatCompletionClient` (model `gpt-4o-mini`)
  and one `AssistantAgent` named `Assistant`.
* `run_crypto_demo.py` — demo flow: generate a random portfolio, display it,
  sample a transaction amount and purpose, request a recommendation, print it.

Python strings are modelled by `String`, an environment lookup result by
`Option String`, Python floats by `ℚ` (the demo only adds and multiplies, so
rational arithmetic models the intended real-number semantics), and the
pseudo-random generator by an explicit stream of draws.
-/

namespace SmartPay

/-! ## Credential bootstrap (`Stock-crypto-portfolio-optimizer/.py`) -/

/-- The placeholder credential string tested on line 16 of the bootstrap. -/
def placeholder_key : String := "your_openai_api_key_here"

/-- Observable outcome of running the bootstrap module: the warning lines it
printed, the exit status (if `exit` was called), and the model identifiers of
the chat-completion clients and names of the assistant agents it constructed. -/
structure BootTrace where
  warnings : List String
  exitCode : Option Nat
  clients : List String
  assistants : List String
deriving Repr, DecidableEq

/-- Python truthiness of `os.getenv` results: `None` and the empty string are
falsy, every other string is truthy. -/
def pyTruthy (s : Option String) : Bool :=
  match s with
  | none => false
  | some k => !(k == "")

/-- Embedding of the module-level bootstrap code.  `env` is the value of
`os.getenv("OPENAI_API_KEY")`.  The guard is
`if not api_key or api_key == "your_openai_api_key_here": ... exit(1)`;
otherwise a single client bound to `"gpt-4o-mini"` and a single assistant
named `"Assistant"` are constructed.  (The warning text is abbreviated.) -/
def runBootstrap (env : Option String) : BootTrace :=
  let api_key := env
  if !(pyTruthy api_key) || (api_key == some placeholder_key) then
    { warnings := ["Warning: Please set your OpenAI API key in the .env file",
                   "Replace the placeholder with your actual API key"],
      exitCode := some 1,
      clients := [],
      assistants := [] }
  else
    { warnings := [],
      exitCode := none,
      clients := ["gpt-4o-mini"],
      assistants := ["Assistant"] }

end SmartPay

namespace SmartPay

/-! ## Demo flow (`run_crypto_demo.py`) -/

/-- One asset holding of the portfolio simulator: a symbol, a quantity held
and a unit price.  Quantities and prices are modelled as rationals. -/
structure Holding where
  symbol : String
  quantity : ℚ
  price : ℚ
deriving Repr, DecidableEq

/-- Modelled from the spec: the portfolio object returned by
`generate_random_portfolio` (defined in
`python-backend/crypto_portfolio_optimizer.py`, which is not part of the
repository source) — "a mapping from asset symbol to (quantity held, unit
price)". -/
structure Portfolio where
  holdings : List Holding
deriving Repr, DecidableEq

/-- Result of `portfolio.get_portfolio_value()`: per-asset values and the
derived total. -/
structure PortfolioValue where
  asset_values : List (String × ℚ)
  total_value : ℚ
deriving Repr, DecidableEq

/-- Modelled from the spec: `get_portfolio_value` (missing from the source,
only its call site is in `run_crypto_demo.py`) — each asset contributes
quantity × price and the derived `total_value` accumulates these
contributions. -/
def Portfolio.get_portfolio_value (p : Portfolio) : PortfolioValue :=
  let rows := p.holdings.map (fun h => (h.symbol, h.quantity * h.price))
  { asset_values := rows,
    total_value := rows.foldl (fun acc r => acc + r.2) 0 }

/-- An explicit stream of pseudo-random draws standing for the state of
Python's global `random` generator: `real k` is the `k`-th output of
`random.random()` and `below k n` the `k`-th output of `_randbelow(n)`. -/
structure RandStream where
  real : ℕ → ℚ
  below : ℕ → ℕ → ℕ

/-- The draws a real generator can produce: `random.random()` lies in
`[0, 1)` and `_randbelow(n)` lies below `n`. -/
def RandStream.valid (g : RandStream) : Prop :=
  (∀ k, 0 ≤ g.real k ∧ g.real k < 1) ∧ (∀ k n, 0 < n → g.below k n < n)

/-- The asset universe used by the spec-modelled generator (the spec example
uses BTC and ETH; the concrete list is a modelling choice, only its
non-emptiness matters). -/
def crypto_symbols : List String := ["BTC", "ETH", "SOL", "ADA", "DOGE"]

/-- Modelled from the spec: `generate_random_portfolio` (defined in
`python-backend/crypto_portfolio_optimizer.py`, not included in the
repository) — "produce a non-empty collection of (symbol, quantity, price)
tuples using a pseudo-random generator with no documented distribution
guarantees beyond random"; generation defines no error conditions.  Each
symbol receives a random quantity and a random unit price. -/
def generate_random_portfolio (g : RandStream) : Portfolio :=
  { holdings :=
      (List.range crypto_symbols.length).map (fun k =>
        { symbol := crypto_symbols.getD k "",
          quantity := 10 * g.real (2 * k),
          price := 100000 * g.real (2 * k + 1) }) }

/-- Python `random.uniform(a, b) = a + (b - a) * random()`, with the
`random()` draw `u` passed explicitly. -/
def uniform (a b u : ℚ) : ℚ := a + (b - a) * u

/-- Python `random.choice(seq) = seq[_randbelow(len(seq))]`, with the index
draw `i` passed explicitly. -/
def choice (l : List String) (i : ℕ) : String := l.getD i ""

/-- The fixed purpose list from line 50 of `run_crypto_demo.py`. -/
def purposes : List String := ["payment to friend", "online purchase", "service payment"]

/-- The sampling step of lines 47-49 of `run_crypto_demo.py`:
`amount = random.uniform(total_value * 0.2, total_value * 0.4)`, where
`total_value = portfolio.get_portfolio_value()['total_value']` and `u` is
the `random()` draw consumed by `random.uniform`. -/
def sample_amount (p : Portfolio) (u : ℚ) : ℚ :=
  let total_value := (p.get_portfolio_value).total_value
  uniform (total_value * 0.2) (total_value * 0.4) u

/-- The observable steps of the demo script, for stating its control flow. -/
inductive Step
  | generate
  | display
  | sampleAmount
  | samplePurpose
  | requestRecommendation
  | printResult
deriving Repr, DecidableEq

/-- One console print of the demo.  `sep` is `print("=" * 80)`, `line` a
fixed text line, `amountLine`/`purposeLine` the formatted transaction lines,
and `recommendationLine` the `print(recommendation)` statement, carrying the
printed string unchanged. -/
inductive PrintItem
  | sep
  | line (s : String)
  | amountLine (amount : ℚ)
  | purposeLine (purpose : String)
  | recommendationLine (s : String)
deriving Repr, DecidableEq

/-- Embedding of the module-level flow of `run_crypto_demo.py`, statement by
statement.  `optimize_transaction` is the external recommendation call
(defined in the missing `python-backend` module; the spec treats it as an
unspecified black box), passed as a function parameter.  The result records
the values bound by the script, the console output and the step trace. -/
structure DemoResult where
  portfolio : Portfolio
  amount : ℚ
  purpose : String
  recommendation : String
  printed : List PrintItem
  trace : List Step
deriving Repr

def runDemo (g : RandStream)
    (optimize_transaction : Portfolio → ℚ → String → String) : DemoResult :=
  let header : List PrintItem :=
    [.sep, .line "CRYPTO PORTFOLIO OPTIMIZER - DEMO", .sep, .line "",
     .line "This demo will:",
     .line "   1. Generate a random crypto portfolio",
     .line "   2. Show current prices and holdings",
     .line "   3. Simulate a transaction request",
     .line "   4. Provide AI-powered recommendations",
     .line "", .sep, .line ""]
  let portfolio := generate_random_portfolio g
  let t1 : List Step := [.generate]
  let p1 := header ++ [.line "Generating random portfolio..."]
  let p2 := p1 ++ [.sep, .line "(portfolio table)"]
  let t2 := t1 ++ [.display]
  let amount := sample_amount portfolio (g.real 10)
  let t3 := t2 ++ [.sampleAmount]
  let purpose := choice purposes (g.below 0 purposes.length)
  let t4 := t3 ++ [.samplePurpose]
  let p3 := p2 ++ [.sep, .line "TRANSACTION REQUEST", .sep,
                   .amountLine amount, .purposeLine purpose, .sep]
  let p4 := p3 ++ [.line "Analyzing portfolio and generating recommendation..."]
  let recommendation := optimize_transaction portfolio amount purpose
  let t5 := t4 ++ [.requestRecommendation]
  let p5 := p4 ++ [.recommendationLine recommendation]
  let t6 := t5 ++ [.printResult]
  let p6 := p5 ++ [.sep, .line "DEMO COMPLETE!", .sep]
  { portfolio := portfolio,
    amount := amount,
    purpose := purpose,
    recommendation := recommendation,
    printed := p6,
    trace := t6 }

/-- C1: a missing key or the placeholder key makes the bootstrap warn and
exit with status 1, constructing no client. -/
theorem bootstrap_missing_or_placeholder_exits (env : Option String)
    (h : env = none ∨ env = some placeholder_key) :
    (runBootstrap env).exitCode = some 1 ∧
    (runBootstrap env).warnings ≠ [] ∧
    (runBootstrap env).clients = [] := by
  rcases h with h | h <;> subst h <;>
    exact ⟨rfl, by decide, rfl⟩

theorem bootstrap_missing_or_placeholder_exits_check :
    (runBootstrap none).exitCode = some 1 ∧
    (runBootstrap none).warnings ≠ [] ∧
    (runBootstrap none).clients = [] :=
  bootstrap_missing_or_placeholder_exits none (Or.inl rfl)

/-- C2: a non-empty, non-placeholder key does not exit early and yields
exactly one client, bound to `gpt-4o-mini`, and exactly one assistant. -/
theorem bootstrap_valid_key_configures (k : String)
    (h1 : k ≠ "") (h2 : k ≠ placeholder_key) :
    (runBootstrap (some k)).exitCode = none ∧
    (runBootstrap (some k)).clients = ["gpt-4o-mini"] ∧
    (runBootstrap (some k)).assistants = ["Assistant"] := by
  simp [runBootstrap, pyTruthy, h1, h2]

theorem bootstrap_valid_key_configures_check :
    (runBootstrap (some "sk-test-123")).exitCode = none ∧
    (runBootstrap (some "sk-test-123")).clients = ["gpt-4o-mini"] ∧
    (runBootstrap (some "sk-test-123")).assistants = ["Assistant"] :=
  bootstrap_valid_key_configures "sk-test-123" (by decide) (by decide)

/-- C8: a key set to the empty string is treated exactly like an absent key,
because the guard tests truthiness; the bootstrap warns and exits with 1. -/
theorem bootstrap_empty_key_like_missing :
    runBootstrap (some "") = runBootstrap none ∧
    (runBootstrap (some "")).exitCode = some 1 :=
  ⟨rfl, rfl⟩

/-- Folding `acc + r.2` over a row list starting from `a` adds the sum of
the second components. -/
theorem foldl_add_snd (rows : List (String × ℚ)) (a : ℚ) :
    rows.foldl (fun acc r => acc + r.2) a = a + (rows.map Prod.snd).sum := by
  induction rows generalizing a with
  | nil => simp
  | cons x xs ih => simp [ih, add_assoc]

/-- For any portfolio, the derived `total_value` is the sum of
quantity × price over the holdings. -/
theorem get_portfolio_value_total_eq (p : Portfolio) :
    (p.get_portfolio_value).total_value
      = (p.holdings.map (fun h => h.quantity * h.price)).sum := by
  simp [Portfolio.get_portfolio_value, foldl_add_snd, List.map_map, Function.comp_def]

/-- With in-range random draws, every generated holding has non-negative
quantity and price, so the generated total value is non-negative. -/
theorem generated_total_value_nonneg (g : RandStream) (hg : g.valid) :
    0 ≤ ((generate_random_portfolio g).get_portfolio_value).total_value := by
  rw [get_portfolio_value_total_eq]
  apply List.sum_nonneg
  intro x hx
  simp only [generate_random_portfolio, List.map_map, List.mem_map,
    List.mem_range, Function.comp] at hx
  obtain ⟨k, hk, rfl⟩ := hx
  have h1 := (hg.1 (2 * k)).1
  have h2 := (hg.1 (2 * k + 1)).1
  have hq : (0 : ℚ) ≤ 10 * g.real (2 * k) := by linarith
  have hp : (0 : ℚ) ≤ 100000 * g.real (2 * k + 1) := by linarith
  exact mul_nonneg hq hp

/-- C4: for every random stream, the total value reported by
`get_portfolio_value` on the generated portfolio equals the sum of
quantity × price over the generated holdings. -/
theorem generated_total_value_eq_sum (g : RandStream) :
    ((generate_random_portfolio g).get_portfolio_value).total_value
      = ((generate_random_portfolio g).holdings.map
          (fun h => h.quantity * h.price)).sum :=
  get_portfolio_value_total_eq _

/-- C3: with valid random draws, the sampled transaction amount lies between
20% and 40% of the generated portfolio's total value. -/
theorem demo_amount_in_range (g : RandStream)
    (opt : Portfolio → ℚ → String → String) (hg : g.valid) :
    0.2 * (((runDemo g opt).portfolio).get_portfolio_value).total_value
        ≤ (runDemo g opt).amount ∧
    (runDemo g opt).amount
        ≤ 0.4 * (((runDemo g opt).portfolio).get_portfolio_value).total_value := by
  have hport : (runDemo g opt).portfolio = generate_random_portfolio g := rfl
  have hamount : (runDemo g opt).amount
      = sample_amount (generate_random_portfolio g) (g.real 10) := rfl
  rw [hport, hamount]
  have htv := generated_total_value_nonneg g hg
  have hu0 := (hg.1 10).1
  have hu1 := (hg.1 10).2
  set tv := ((generate_random_portfolio g).get_portfolio_value).total_value with htvdef
  set u := g.real 10 with hudef
  have hform : sample_amount (generate_random_portfolio g) u
      = tv * 0.2 + (tv * 0.4 - tv * 0.2) * u := by
    simp [sample_amount, uniform]
  rw [hform]
  constructor
  · nlinarith [mul_nonneg htv hu0]
  · nlinarith [mul_nonneg htv (by linarith : (0 : ℚ) ≤ 1 - u)]

/-- A concrete valid stream, used to evaluate the demo theorems: every
`random()` draw is 1/2, every `_randbelow(n)` draw is 0. -/
def const_stream : RandStream :=
  { real := fun _ => 1/2, below := fun _ _ => 0 }

theorem demo_amount_in_range_check :
    0.2 * (((runDemo const_stream (fun _ _ _ => "HOLD")).portfolio).get_portfolio_value).total_value
        ≤ (runDemo const_stream (fun _ _ _ => "HOLD")).amount ∧
    (runDemo const_stream (fun _ _ _ => "HOLD")).amount
        ≤ 0.4 * (((runDemo const_stream (fun _ _ _ => "HOLD")).portfolio).get_portfolio_value).total_value :=
  demo_amount_in_range const_stream (fun _ _ _ => "HOLD")
    ⟨fun _ => ⟨by norm_num [const_stream], by norm_num [const_stream]⟩,
     fun _ n hn => by simpa [const_stream] using hn⟩

/-- C5: the sampled purpose always belongs to the fixed three-element set of
purpose strings, the set really has three pairwise-distinct elements, and
distinct index draws select distinct purposes. -/
theorem demo_purpose_in_fixed_set (g : RandStream)
    (opt : Portfolio → ℚ → String → String) (hg : g.valid) :
    (runDemo g opt).purpose ∈ purposes ∧
    purposes = ["payment to friend", "online purchase", "service payment"] ∧
    purposes.Nodup ∧ purposes.length = 3 ∧
    (∀ i j, i < purposes.length → j < purposes.length →
      choice purposes i = choice purposes j → i = j) := by
  have hidx : g.below 0 purposes.length < 3 := by
    simpa [purposes] using hg.2 0 purposes.length (by decide)
  have hpur : (runDemo g opt).purpose
      = choice purposes (g.below 0 purposes.length) := rfl
  refine ⟨?_, rfl, by decide, rfl, ?_⟩
  · rw [hpur]
    have h3 : g.below 0 purposes.length = 0 ∨ g.below 0 purposes.length = 1 ∨
        g.below 0 purposes.length = 2 := by omega
    rcases h3 with h | h | h <;> rw [h] <;> decide
  · intro i j hi hj hij
    have hi3 : i < 3 := by simpa [purposes] using hi
    have hj3 : j < 3 := by simpa [purposes] using hj
    interval_cases i <;> interval_cases j <;> simp_all [choice, purposes]

theorem demo_purpose_in_fixed_set_check :
    (runDemo const_stream (fun _ _ _ => "SELL")).purpose ∈ purposes ∧
    purposes = ["payment to friend", "online purchase", "service payment"] ∧
    purposes.Nodup ∧ purposes.length = 3 ∧
    (∀ i j, i < purposes.length → j < purposes.length →
      choice purposes i = choice purposes j → i = j) :=
  demo_purpose_in_fixed_set const_stream (fun _ _ _ => "SELL")
    ⟨fun _ => ⟨by norm_num [const_stream], by norm_num [const_stream]⟩,
     fun _ n hn => by simpa [const_stream] using hn⟩

/-- C6: portfolio generation is a total function (it cannot fail) and for
every random stream it produces a non-empty list of holdings, one per
symbol of the asset universe. -/
theorem generate_random_portfolio_nonempty (g : RandStream) :
    (generate_random_portfolio g).holdings ≠ [] ∧
    (generate_random_portfolio g).holdings.length = crypto_symbols.length := by
  have hlen : (generate_random_portfolio g).holdings.length = crypto_symbols.length := by
    simp [generate_random_portfolio]
  refine ⟨?_, hlen⟩
  intro hnil
  rw [hnil] at hlen
  simp [crypto_symbols] at hlen

/-- C7: the demo performs its steps in the fixed order generate → display →
sample amount → sample purpose → request recommendation → print result, with
no step repeated and the recommendation requested exactly once. -/
theorem demo_step_order (g : RandStream)
    (opt : Portfolio → ℚ → String → String) :
    (runDemo g opt).trace
      = [Step.generate, Step.display, Step.sampleAmount, Step.samplePurpose,
         Step.requestRecommendation, Step.printResult] ∧
    (runDemo g opt).trace.count Step.requestRecommendation = 1 ∧
    (runDemo g opt).trace.Nodup := by
  have h : (runDemo g opt).trace
      = [Step.generate, Step.display, Step.sampleAmount, Step.samplePurpose,
         Step.requestRecommendation, Step.printResult] := rfl
  exact ⟨h, by rw [h]; decide, by rw [h]; decide⟩

/-- C9: the sampling step of lines 47-49 reads the portfolio only through
its total value: equal totals and an equal generator state yield an equal
amount, whatever the individual holdings are. -/
theorem sample_amount_depends_only_on_total (p q : Portfolio) (u : ℚ)
    (h : (p.get_portfolio_value).total_value = (q.get_portfolio_value).total_value) :
    sample_amount p u = sample_amount q u := by
  simp only [sample_amount]
  rw [h]

theorem sample_amount_depends_only_on_total_check :
    (Portfolio.get_portfolio_value ⟨[⟨"BTC", 1/10, 60000⟩, ⟨"ETH", 2, 3000⟩]⟩).total_value
      = (Portfolio.get_portfolio_value ⟨[⟨"SOL", 1, 12000⟩]⟩).total_value ∧
    sample_amount ⟨[⟨"BTC", 1/10, 60000⟩, ⟨"ETH", 2, 3000⟩]⟩ (1/2)
      = sample_amount ⟨[⟨"SOL", 1, 12000⟩]⟩ (1/2) :=
  ⟨by norm_num [Portfolio.get_portfolio_value],
   sample_amount_depends_only_on_total _ _ _
     (by norm_num [Portfolio.get_portfolio_value])⟩

/-- The strings printed by `print(recommendation)` statements, extracted
from the console output in order. -/
def recommendation_prints (l : List PrintItem) : List String :=
  l.filterMap (fun it =>
    match it with
    | .recommendationLine s => some s
    | _ => none)

/-- C10: the demo prints the string returned by `optimize_transaction`
verbatim, exactly once, with no truncation or modification, whatever value
the call returns. -/
theorem demo_prints_recommendation_verbatim (g : RandStream)
    (opt : Portfolio → ℚ → String → String) :
    recommendation_prints (runDemo g opt).printed
      = [opt (runDemo g opt).portfolio (runDemo g opt).amount (runDemo g opt).purpose] ∧
    (runDemo g opt).recommendation
      = opt (runDemo g opt).portfolio (runDemo g opt).amount (runDemo g opt).purpose :=
  ⟨rfl, rfl⟩

end SmartPay
